import Mathlib

/-!
Shallow embedding of the legalese-to-simplese frontend.

The repository contains two upload prototypes (a router-based Upload page
and a plain-CSS DocumentUpload component), a results page (Analysis), a
loading overlay (CustomLoadingOverlay), and a shared analysis context.
Event handlers are embedded as pure functions from component state to a
pair of the new state and a list of emitted browser effects (alerts,
navigations, HTTP requests, timers).  JavaScript numbers are modelled as
rationals; possibly-undefined JSON fields are modelled as Option.
-/

namespace L2S

/-- A browser File object as far as the code reads it: name, MIME type
and byte size. -/
structure JsFile where
  name : String
  type : String
  size : Nat
deriving DecidableEq, Repr

/-- A highlight entry of the analysis payload: an object with a `data`
field, possibly absent. -/
structure Highlight where
  data : Option String
deriving DecidableEq, Repr

/-- A risk entry of the analysis payload: `title` and `description`,
each possibly absent. -/
structure RiskItem where
  title : Option String
  description : Option String
deriving DecidableEq, Repr

/-- The `Risk_Assessment` object of the analysis payload.  Every field
may be absent in the JSON the external backend returns. -/
structure RiskAssessment where
  Risk_Score : Option ℚ
  High_Risk : Option (List RiskItem)
  Medium_Risk : Option (List RiskItem)
  Low_Risk : Option (List RiskItem)
deriving DecidableEq, Repr

/-- A key-term entry of the analysis payload. -/
structure KeyTerm where
  title : Option String
  description : Option String
deriving DecidableEq, Repr

/-- The analysis payload rendered by the results page.  Each top-level
field may be absent, since the JSON comes from an external service and
the repository performs no validation. -/
structure Payload where
  Document_Type : Option String
  Main_Purpose : Option String
  Key_Highlights : Option (List Highlight)
  Risk_Assessment : Option RiskAssessment
  Key_Terms : Option (List KeyTerm)
  Suggested_Questions : Option (List String)
deriving DecidableEq, Repr

/-- Browser effects emitted by event handlers. -/
inductive Effect where
  | httpPost (url : String) (fileField : Option JsFile) (textField : Option String)
  | httpGet (url : String)
  | alert (msg : String)
  | navigate (path : String)
  | navigateAfter (ms : Nat) (path : String)
  | setTimeoutMs (ms : Nat)
deriving DecidableEq, Repr

/-- Whether an effect is an outbound HTTP request. -/
def Effect.isHttp : Effect → Bool
  | .httpPost _ _ _ => true
  | .httpGet _ => true
  | _ => false

/-- Whether an effect is a browser alert. -/
def Effect.isAlert : Effect → Bool
  | .alert _ => true
  | _ => false

/-- Whether an effect is a navigation (immediate or delayed). -/
def Effect.isNav : Effect → Bool
  | .navigate _ => true
  | .navigateAfter _ _ => true
  | _ => false

/-- Number of outbound HTTP requests in a list of effects. -/
def httpCount (l : List Effect) : Nat :=
  (l.filter Effect.isHttp).length

/-- The outcome the environment supplies for a single fetch call: either
the promise rejects with an error message, or a response arrives with an
`ok` flag, a status code, and a body that may or may not parse as JSON. -/
inductive FetchOutcome where
  | reject (msg : String)
  | response (ok : Bool) (status : Nat) (json : Option Payload)
deriving DecidableEq, Repr

/-- JavaScript `a || b` on strings: the empty string is falsy. -/
def jsOr (a b : String) : String :=
  if a = "" then b else a

/-- JavaScript String.prototype.trim: removes whitespace from both ends
of the string (written over the character list so that it evaluates by
kernel reduction). -/
def jsTrim (s : String) : String :=
  ⟨((s.data.dropWhile Char.isWhitespace).reverse.dropWhile Char.isWhitespace).reverse⟩

/-- `getRiskLevel` from the results page: classifies a risk score into a
label and a CSS class. -/
def getRiskLevel (score : ℚ) : String × String :=
  if score ≥ 8 then ("High Risk", "high-risk")
  else if score ≥ 5 then ("Medium Risk", "medium-risk")
  else ("Low Risk", "low-risk")

/-- The renderer applies `getRiskLevel` to `Risk_Assessment.Risk_Score`,
which may be undefined; JavaScript comparisons against undefined are
false, so both guards fail and the Low Risk branch is taken. -/
def getRiskLevelJs : Option ℚ → String × String
  | some q => getRiskLevel q
  | none => ("Low Risk", "low-risk")

/-- One key-term row of the terms tab: the renderer computes
`description.split(" ")[0]` and the joined remainder.  When
`description` is absent, `.split` is called on undefined and the render
throws, modelled as `none`. -/
def renderTermRow (t : KeyTerm) : Option (String × String) :=
  match t.description with
  | none => none
  | some desc =>
    let parts := desc.splitOn " "
    some (parts.headD "", String.intercalate " " parts.tail)

/-- The rows of the Key Terms tab: the map over key terms, with the
throw of any single row propagating as a failed render. -/
def renderTermRows : List KeyTerm → Option (List (String × String))
  | [] => some []
  | t :: rest =>
    match renderTermRow t with
    | none => none
    | some row =>
      match renderTermRows rest with
      | none => none
      | some rows => some (row :: rows)

/-- The data the results page extracts from the payload while rendering
(all four tab panels are present in the JSX tree, so all of them are
evaluated on every render). -/
structure RenderedResults where
  docType : Option String
  mainPurpose : Option String
  riskScore : Option ℚ
  riskLabel : String
  riskCss : String
  highlights : List (Option String)
  risksFound : Nat
  keyTermsCount : Nat
  questionsCount : Nat
  highRisks : List RiskItem
  mediumRisks : List RiskItem
  lowRisks : List RiskItem
  showNoRisks : Bool
  termRows : List (String × String)
  questions : List String
deriving DecidableEq, Repr

/-- The results renderer of the Analysis page.  Field accesses written
with optional chaining in the source (the three risk buckets) tolerate
an absent field; the remaining accesses read a property of a possibly
undefined value and throw, modelled as `none`:
`Risk_Assessment.Risk_Score`, `Key_Highlights.map`, `Key_Terms.length`,
`Suggested_Questions.length`, and `term.description.split`. -/
def render (d : Payload) : Option RenderedResults :=
  match d.Risk_Assessment with
  | none => none
  | some ra =>
    match d.Key_Highlights with
    | none => none
    | some khs =>
      match d.Key_Terms with
      | none => none
      | some kts =>
        match d.Suggested_Questions with
        | none => none
        | some sqs =>
          match renderTermRows kts with
          | none => none
          | some rows =>
            let lvl := getRiskLevelJs ra.Risk_Score
            some
              { docType := d.Document_Type
                mainPurpose := d.Main_Purpose
                riskScore := ra.Risk_Score
                riskLabel := lvl.1
                riskCss := lvl.2
                highlights := khs.map Highlight.data
                risksFound :=
                  (ra.High_Risk.getD []).length + (ra.Medium_Risk.getD []).length +
                    (ra.Low_Risk.getD []).length
                keyTermsCount := kts.length
                questionsCount := sqs.length
                highRisks := ra.High_Risk.getD []
                mediumRisks := ra.Medium_Risk.getD []
                lowRisks := ra.Low_Risk.getD []
                showNoRisks :=
                  ((ra.High_Risk.getD []).length == 0 && (ra.Medium_Risk.getD []).length == 0 &&
                    (ra.Low_Risk.getD []).length == 0)
                termRows := rows
                questions := sqs }

/-- URL of the document-processing endpoint the router-based Upload page
posts to. -/
def processDocumentUrl : String :=
  "http://localhost:8000/api/upload/process-document"

/-- URL of the health-check endpoint the Analysis page fetches. -/
def healthUrl : String :=
  "http://localhost:8000/api/health/document-analysis"

/-- Message of the ReferenceError raised when the handler evaluates the
undefined identifier `file`. -/
def fileNotDefinedMsg : String := "file is not defined"

/-- State of the router-based Upload page, including the shared analysis
context value the page can write through setAnalysis. -/
structure UploadState where
  activeTab : String
  hasFile : Bool
  fileObj : Option JsFile
  pasteText : String
  loading : Bool
  analysis : Option Payload
deriving DecidableEq, Repr

/-- The initial Upload page state: upload tab active, no file, empty
paste text, not loading, and an empty shared analysis context. -/
def initUploadState : UploadState :=
  { activeTab := "upload", hasFile := false, fileObj := none, pasteText := "",
    loading := false, analysis := none }

/-- The list of accepted MIME types in onFileSelected. -/
def allowedTypes : List String := ["application/pdf"]

/-- The client-side size cap: 10 MB. -/
def maxFileSize : Nat := 10 * 1024 * 1024

/-- `onFileSelected` of the router-based Upload page: rejects a file
whose MIME type is not in the accepted list, then a file over 10 MB,
each with an alert and without touching state; otherwise records the
file in hasFile and fileObj. -/
def onFileSelected (s : UploadState) (file : Option JsFile) : UploadState × List Effect :=
  match file with
  | none => (s, [])
  | some f =>
    if f.type ∉ allowedTypes then
      (s, [Effect.alert "Please upload a PDF, DOC, DOCX, or TXT file."])
    else if f.size > maxFileSize then
      (s, [Effect.alert "File size must be less than 10MB."])
    else
      ({ s with hasFile := true, fileObj := some f }, [])

/-- `analyze` of the router-based Upload page (the fetch variant).  The
guard alerts when neither a file nor pasted text is present.  Otherwise
the try block evaluates `hasFile && file`; the identifier `file` is not
bound in the component (the state is named fileObj), so when hasFile is
true the condition throws a ReferenceError which the catch turns into an
alert, and no request is sent.  On the paste path one POST is issued and
the response decides between setAnalysis plus navigation and an alert.
The finally block resets loading to false in every case. -/
def analyze (s : UploadState) (env : FetchOutcome) : UploadState × List Effect :=
  if s.hasFile = false ∧ jsTrim s.pasteText = "" then
    (s, [Effect.alert "Please upload a document or paste text to analyze."])
  else if s.hasFile then
    ({ s with loading := false }, [Effect.alert fileNotDefinedMsg])
  else
    let textField : Option String :=
      if jsTrim s.pasteText = "" then none else some s.pasteText
    let post := Effect.httpPost processDocumentUrl none textField
    match env with
    | .reject msg =>
      ({ s with loading := false }, [post, Effect.alert (jsOr msg "Analysis failed")])
    | .response ok status json =>
      if ok then
        match json with
        | some d =>
          ({ s with loading := false, analysis := some d },
           [post, Effect.navigate "/analysis"])
        | none =>
          ({ s with loading := false },
           [post, Effect.alert "Unexpected end of JSON input"])
      else
        ({ s with loading := false },
         [post, Effect.alert ("Server error: " ++ toString status)])

/-- The hardcoded payload the demo variant of the Upload page stores
into the analysis context (its JSON literal has no Low_Risk bucket). -/
def demoPayload : Payload :=
  { Document_Type := some "Rental Agreement"
    Main_Purpose := some "To establish the terms and conditions for the rental of a residential property between a landlord and a tenant."
    Key_Highlights := some
      [ { data := some "11-month fixed term tenancy starting October 1, 2025." },
        { data := some "Monthly rent of ₹25,000 due by the 5th, with a steep ₹500/day late fee after 3 days." },
        { data := some "Refundable security deposit of ₹75,000, subject to deductions for unpaid rent, damages, or utilities." },
        { data := some "Either party can terminate with one-month written notice: early vacating without notice forfeits the deposit." } ]
    Risk_Assessment := some
      { Risk_Score := some 9
        High_Risk := some
          [ { title := some "Steep Late Fee Penalty",
              description := some "₹500/day late fee after 3 days is unusually high and may be unenforceable in court." },
            { title := some "Deposit Forfeiture Clause",
              description := some "Complete deposit forfeiture for early termination may be excessive and legally questionable." } ]
        Medium_Risk := some
          [ { title := some "Vague Maintenance Terms",
              description := some "Minor repairs and major structural issues are not clearly defined." },
            { title := some "Notice Period Ambiguity",
              description := some "One-month notice requirement lacks specific delivery method requirements." } ]
        Low_Risk := none }
    Key_Terms := some
      [ { title := some "Monthly Rent",
          description := some "₹25,000 Due by 5th of each month" },
        { title := some "Lease Duration",
          description := some "11 months Fixed term starting October 1, 2025" } ]
    Suggested_Questions := some
      [ "What happens if I pay rent late?",
        "Can I terminate the lease early?" ] }

/-- `analyze` of the demo variant of the Upload page: same guard, but
instead of a request it stores the hardcoded payload into the analysis
context and navigates; the finally block resets loading to false. -/
def analyzeDemo (s : UploadState) : UploadState × List Effect :=
  if s.hasFile = false ∧ jsTrim s.pasteText = "" then
    (s, [Effect.alert "Please upload a document or paste text to analyze."])
  else
    ({ s with loading := false, analysis := some demoPayload },
     [Effect.navigate "/analysis"])

/-- State of the plain-CSS DocumentUpload prototype. -/
structure DocUploadState where
  uploadMethod : String
  file : Option JsFile
  text : String
  isAnalyzing : Bool
deriving DecidableEq, Repr

/-- The initial DocumentUpload state. -/
def initDocUploadState : DocUploadState :=
  { uploadMethod := "upload", file := none, text := "", isAnalyzing := false }

/-- `handleFileChange` of DocumentUpload: stores the selected file with
no type or size validation and no alert. -/
def handleFileChange (d : DocUploadState) (f : JsFile) : DocUploadState × List Effect :=
  ({ d with file := some f }, [])

/-- `handleAnalyze` of DocumentUpload: sets isAnalyzing and starts a
3000 ms timer; no network request is issued. -/
def handleAnalyze (d : DocUploadState) : DocUploadState × List Effect :=
  ({ d with isAnalyzing := true }, [Effect.setTimeoutMs 3000])

/-- The callback of the 3000 ms timer in handleAnalyze: resets
isAnalyzing and shows the completion alert. -/
def analyzeTimerDone (d : DocUploadState) : DocUploadState × List Effect :=
  ({ d with isAnalyzing := false },
   [Effect.alert "Document analysis complete! (This is a demo)"])

/-- Label of the DocumentUpload Analyze button. -/
def analyzeBtnLabel (d : DocUploadState) : String :=
  if d.isAnalyzing then "Analyzing..." else "Analyze Document"

/-- The disabled attribute of the DocumentUpload Analyze button:
`isAnalyzing || (!file && !text)`. -/
def analyzeBtnDisabled (d : DocUploadState) : Bool :=
  d.isAnalyzing || (d.file.isNone && d.text == "")

/-- The Analyze button of the router-based Upload page carries no
disabled attribute, so it is enabled in every state. -/
def uploadAnalyzeBtnDisabled (_ : UploadState) : Bool := false

/-- State of the Analysis (results) page. -/
structure AnalysisPageState where
  analysisData : Option Payload
  loading : Bool
  error : Option String
deriving DecidableEq, Repr

/-- The initial Analysis page state: no data, loading true, no error. -/
def initAnalysisPageState : AnalysisPageState :=
  { analysisData := none, loading := true, error := none }

/-- `fetchAnalysisData` of the Analysis page: sets loading, issues one
GET to the health endpoint, stores the parsed body on success, stores
the error message on rejection, a non-ok status, or a body that fails
to parse; finally resets loading. -/
def fetchAnalysisData (s : AnalysisPageState) (env : FetchOutcome) :
    AnalysisPageState × List Effect :=
  let get := Effect.httpGet healthUrl
  match env with
  | .reject msg =>
    ({ s with error := some msg, loading := false }, [get])
  | .response ok _ json =>
    if ok then
      match json with
      | some d => ({ s with analysisData := some d, loading := false }, [get])
      | none =>
        ({ s with error := some "Unexpected end of JSON input", loading := false }, [get])
    else
      ({ s with error := some "Failed to fetch analysis data", loading := false }, [get])

/-- The mount effect of the Analysis page: when local storage has no
legalAnalysisData entry it schedules a navigation to /upload after
300 ms and fetches nothing; otherwise it calls fetchAnalysisData. -/
def analysisMount (s : AnalysisPageState) (stored : Option String) (env : FetchOutcome) :
    AnalysisPageState × List Effect :=
  match stored with
  | none => (s, [Effect.navigateAfter 300 "/upload"])
  | some _ => fetchAnalysisData s env

/-- JavaScript truthiness of the error state: an absent error and the
empty string are both falsy. -/
def jsTruthyStr : Option String → Bool
  | some m => m ≠ ""
  | none => false

/-- What the Analysis page shows for a given state. -/
inductive PageView where
  | loadingView
  | errorView (msg : String) (hasRetryButton : Bool)
  | emptyView
  | resultsView (v : RenderedResults)
  | crash
deriving DecidableEq, Repr

/-- The top-level render of the Analysis page: the loading spinner while
loading, the inline error panel (whose Retry button calls
fetchAnalysisData) when error is truthy, null when no data, and the
results renderer otherwise; an unguarded access in the renderer throws,
modelled as `crash`. -/
def renderAnalysisPage (s : AnalysisPageState) : PageView :=
  if s.loading then .loadingView
  else if jsTruthyStr s.error then .errorView (s.error.getD "") true
  else
    match s.analysisData with
    | none => .emptyView
    | some d =>
      match render d with
      | none => .crash
      | some v => .resultsView v

/-- Initial stage text of CustomLoadingOverlay. -/
def initialStage : String := "Analyzing Your Document"

/-- Stage text once progress passes 70. -/
def finalizingStage : String := "Finalizing analysis report..."

/-- One tick of CustomLoadingOverlay: progress becomes
`min(prev + increment, 95)` where the increment is `Math.random() * 8`,
and the stage effect switches the text once progress exceeds 70. -/
def overlayStep (st : ℚ × String) (inc : ℚ) : ℚ × String :=
  let p := min (st.1 + inc) 95
  (p, if p > 70 then finalizingStage else st.2)

/-- The trace of overlay states produced by a list of tick increments,
starting from a given state (which the trace includes). -/
def overlayTrace (st : ℚ × String) : List ℚ → List (ℚ × String)
  | [] => [st]
  | i :: rest => st :: overlayTrace (overlayStep st i) rest

/-- The initial overlay state: progress at the default initial value 5,
stage at the initial text. -/
def initOverlayState : ℚ × String := (5, initialStage)

/-- A small valid PDF file used as a concrete input. -/
def samplePdf : JsFile :=
  { name := "agreement.pdf", type := "application/pdf", size := 1000 }

/-- A PDF file over the 10 MB cap. -/
def oversizedPdf : JsFile :=
  { name := "big.pdf", type := "application/pdf", size := 11 * 1024 * 1024 }

/-- A file that is both of an unaccepted type and over the 10 MB cap. -/
def oversizedBadFile : JsFile :=
  { name := "movie.bin", type := "application/octet-stream", size := 20 * 1024 * 1024 }

/-- The Upload page state right after a valid file was selected. -/
def uploadStateWithFile : UploadState :=
  { initUploadState with hasFile := true, fileObj := some samplePdf }

/-- C1: clicking Analyze with a selected file (hasFile true) is claimed
to send exactly one POST carrying the file and, on an ok response, to
store the parsed body and navigate to /analysis.  The handler instead
evaluates the undefined identifier `file` (the state is named fileObj),
throws a ReferenceError before any request, and the catch shows an
alert: for every fetch environment the click emits only the alert, no
HTTP request, no navigation, and leaves the analysis context empty. -/
theorem analyze_selected_file_sends_no_post :
    ∀ env : FetchOutcome,
      (analyze uploadStateWithFile env).2 = [Effect.alert fileNotDefinedMsg] ∧
      httpCount (analyze uploadStateWithFile env).2 = 0 ∧
      (analyze uploadStateWithFile env).2.all (fun e => !e.isNav) = true ∧
      (analyze uploadStateWithFile env).1.analysis = none := by
  intro env
  exact ⟨rfl, rfl, rfl, rfl⟩

/-- C3 counterexample: handleFileChange of the plain-CSS DocumentUpload
accepts a file that is both of an unaccepted type and over 10 MB,
stores it into the file state, and shows no alert, contradicting the
claim that such a file is rejected with an alert and the file state
left unchanged. -/
theorem handleFileChange_accepts_invalid_oversized :
    handleFileChange initDocUploadState oversizedBadFile =
      ({ initDocUploadState with file := some oversizedBadFile }, []) ∧
    oversizedBadFile.type ∉ allowedTypes ∧
    oversizedBadFile.size > maxFileSize :=
  ⟨rfl, by decide, by decide⟩

/-- C3 (amended): the router-based Upload page validates as claimed, an
unaccepted type or an oversized file is rejected with an alert and the
hasFile and fileObj state untouched, and a valid file is accepted into
state; the plain-CSS DocumentUpload performs no validation and accepts
every selected file with no alert. -/
theorem file_selection_validation :
    ∀ (s : UploadState) (f : JsFile) (d : DocUploadState),
      ((f.type ∉ allowedTypes ∨ f.size > maxFileSize) →
        (onFileSelected s (some f)).1 = s ∧
        (onFileSelected s (some f)).2.any Effect.isAlert = true) ∧
      (f.type ∈ allowedTypes → f.size ≤ maxFileSize →
        (onFileSelected s (some f)).1.hasFile = true ∧
        (onFileSelected s (some f)).1.fileObj = some f ∧
        (onFileSelected s (some f)).2 = []) ∧
      (handleFileChange d f).1.file = some f ∧ (handleFileChange d f).2 = [] := by
  intro s f d
  refine ⟨?_, ?_, rfl, rfl⟩
  · rintro (h | h)
    · simp [onFileSelected, h, Effect.isAlert]
    · by_cases ht : f.type ∉ allowedTypes
      · simp [onFileSelected, ht, Effect.isAlert]
      · simp [onFileSelected, ht, h, Effect.isAlert]
  · intro h1 h2
    have h3 : ¬ f.size > maxFileSize := Nat.not_lt.mpr h2
    simp [onFileSelected, h1, h3]

/-- C3 (amended) witness: concrete instances discharging the
hypotheses, a rejected invalid oversized file on the router page and an
accepted small PDF. -/
theorem file_selection_validation_witness :
    ((onFileSelected initUploadState (some oversizedBadFile)).1 = initUploadState ∧
     (onFileSelected initUploadState (some oversizedBadFile)).2.any Effect.isAlert = true) ∧
    ((onFileSelected initUploadState (some samplePdf)).1.hasFile = true ∧
     (onFileSelected initUploadState (some samplePdf)).1.fileObj = some samplePdf ∧
     (onFileSelected initUploadState (some samplePdf)).2 = []) :=
  ⟨(file_selection_validation initUploadState oversizedBadFile initDocUploadState).1
      (Or.inl (by decide)),
   (file_selection_validation initUploadState samplePdf initDocUploadState).2.1
      (by decide) (by decide)⟩

/-- C4 counterexample: in the plain-CSS DocumentUpload, selecting a
file larger than 10 MB shows no alert and enables the Analyze button
(the file state becomes non-empty), and clicking Analyze then starts
the demo analysis, contradicting the claim that an alert is shown and
the button is not enabled. -/
theorem docUpload_oversized_enables_analyze :
    (handleFileChange initDocUploadState oversizedPdf).2 = [] ∧
    (handleFileChange initDocUploadState oversizedPdf).1.file = some oversizedPdf ∧
    analyzeBtnDisabled (handleFileChange initDocUploadState oversizedPdf).1 = false ∧
    (handleAnalyze (handleFileChange initDocUploadState oversizedPdf).1).1.isAnalyzing = true ∧
    oversizedPdf.size > maxFileSize :=
  ⟨rfl, rfl, rfl, rfl, by decide⟩

/-- C4 (amended): on the router-based Upload page, selecting an
oversized file from the initial state shows the size alert and leaves
the state unchanged, so clicking Analyze afterwards does not start an
analysis, it alerts, sets no loading, and issues no request (the DOM
button itself carries no disabled attribute); in the plain-CSS
DocumentUpload, selecting an oversized file shows no alert and the
Analyze button becomes enabled. -/
theorem oversized_file_analyze_outcome :
    ∀ env : FetchOutcome,
      onFileSelected initUploadState (some oversizedPdf) =
        (initUploadState, [Effect.alert "File size must be less than 10MB."]) ∧
      (analyze initUploadState env).2 =
        [Effect.alert "Please upload a document or paste text to analyze."] ∧
      (analyze initUploadState env).1.loading = false ∧
      httpCount (analyze initUploadState env).2 = 0 ∧
      uploadAnalyzeBtnDisabled initUploadState = false ∧
      (handleFileChange initDocUploadState oversizedPdf).2 = [] ∧
      analyzeBtnDisabled (handleFileChange initDocUploadState oversizedPdf).1 = false := by
  have hguard : initUploadState.hasFile = false ∧ jsTrim initUploadState.pasteText = "" :=
    ⟨rfl, by decide⟩
  intro env
  refine ⟨by decide, ?_, ?_, ?_, rfl, rfl, rfl⟩
  · unfold analyze
    rw [if_pos hguard]
  · unfold analyze
    rw [if_pos hguard]
    exact rfl
  · unfold analyze
    rw [if_pos hguard]
    exact rfl

/-- C5 counterexample: the Analysis page issues an outbound HTTP GET on
mount whenever the local-storage hand-off entry exists, an asynchronous
HTTP operation performed outside any Analyze click, contradicting the
claim that no component performs any other asynchronous HTTP
operation. -/
theorem analysisMount_issues_http_get :
    (analysisMount initAnalysisPageState (some "data") (FetchOutcome.reject "network error")).2 =
      [Effect.httpGet healthUrl] ∧
    httpCount
      (analysisMount initAnalysisPageState (some "data") (FetchOutcome.reject "network error")).2 = 1 :=
  ⟨rfl, rfl⟩

/-- C5 (amended): each Analyze click triggers at most one outbound HTTP
request (the fetch variant at most one, the demo variant and the
plain-CSS DocumentUpload none), but additionally the Analysis page
issues exactly one GET per fetchAnalysisData call, which runs on mount
with stored hand-off data and on each Retry click. -/
theorem http_request_count_per_handler :
    ∀ (s : UploadState) (env : FetchOutcome) (d : DocUploadState) (a : AnalysisPageState),
      httpCount (analyze s env).2 ≤ 1 ∧
      httpCount (analyzeDemo s).2 = 0 ∧
      httpCount (handleAnalyze d).2 = 0 ∧
      httpCount (fetchAnalysisData a env).2 = 1 := by
  intro s env d a
  refine ⟨?_, ?_, rfl, ?_⟩
  · unfold analyze
    split
    · simp [httpCount, Effect.isHttp]
    · split
      · simp [httpCount, Effect.isHttp]
      · cases env with
        | reject msg => simp [httpCount, Effect.isHttp]
        | response ok status json =>
          cases ok with
          | false => simp [httpCount, Effect.isHttp]
          | true => cases json <;> simp [httpCount, Effect.isHttp]
  · unfold analyzeDemo
    split
    · simp [httpCount, Effect.isHttp]
    · simp [httpCount, Effect.isHttp]
  · unfold fetchAnalysisData
    cases env with
    | reject msg => simp [httpCount, Effect.isHttp]
    | response ok status json =>
      cases ok with
      | false => simp [httpCount, Effect.isHttp]
      | true => cases json <;> simp [httpCount, Effect.isHttp]

/-- The demo payload with its Risk_Assessment field removed; every
other field is still present. -/
def payloadNoRiskAssessment : Payload :=
  { demoPayload with Risk_Assessment := none }

/-- C7 counterexample: a payload missing only Risk_Assessment does not
render, the renderer reads `Risk_Assessment.Risk_Score` without an
optional-chaining guard and throws, so the Analysis page crashes on it,
contradicting the claim that a payload missing any field still renders. -/
theorem render_missing_risk_assessment_throws :
    render payloadNoRiskAssessment = none ∧
    payloadNoRiskAssessment.Document_Type.isSome = true ∧
    payloadNoRiskAssessment.Main_Purpose.isSome = true ∧
    payloadNoRiskAssessment.Key_Highlights.isSome = true ∧
    payloadNoRiskAssessment.Key_Terms.isSome = true ∧
    payloadNoRiskAssessment.Suggested_Questions.isSome = true ∧
    renderAnalysisPage
      { analysisData := some payloadNoRiskAssessment, loading := false, error := none } =
      PageView.crash :=
  ⟨rfl, rfl, rfl, rfl, rfl, rfl, rfl⟩

/-- Helper for the amended C7: the Key Terms rows render whenever every
key term has a description. -/
theorem renderTermRows_isSome (kts : List KeyTerm)
    (h : ∀ t ∈ kts, t.description.isSome = true) :
    (renderTermRows kts).isSome = true := by
  induction kts with
  | nil => rfl
  | cons t rest ih =>
    have ht := h t (List.mem_cons_self t rest)
    have hrest := ih (fun x hx => h x (List.mem_cons_of_mem t hx))
    cases hd : t.description with
    | none => rw [hd] at ht; simp at ht
    | some desc =>
      obtain ⟨rows, hrows⟩ := Option.isSome_iff_exists.mp hrest
      simp [renderTermRows, renderTermRow, hd, hrows]

/-- C7 (amended): rendering is total only for payloads whose
Risk_Assessment, Key_Highlights, Key_Terms and Suggested_Questions
fields are present and whose key terms all carry a description; the
three risk buckets are the fields protected by optional chaining and
may be absent (they are left unconstrained here). -/
theorem render_total_when_required_present :
    ∀ (d : Payload) (ra : RiskAssessment) (khs : List Highlight) (kts : List KeyTerm)
      (sqs : List String),
      d.Risk_Assessment = some ra → d.Key_Highlights = some khs →
      d.Key_Terms = some kts → d.Suggested_Questions = some sqs →
      (∀ t ∈ kts, t.description.isSome = true) →
      (render d).isSome = true := by
  intro d ra khs kts sqs h1 h2 h3 h4 h5
  obtain ⟨rows, hrows⟩ := Option.isSome_iff_exists.mp (renderTermRows_isSome kts h5)
  simp [render, h1, h2, h3, h4, hrows]

/-- A payload whose unguarded fields are all present but whose three
risk buckets and every optional leaf are absent. -/
def minimalPayload : Payload :=
  { Document_Type := none, Main_Purpose := none, Key_Highlights := some [],
    Risk_Assessment := some
      { Risk_Score := none, High_Risk := none, Medium_Risk := none, Low_Risk := none },
    Key_Terms := some [], Suggested_Questions := some [] }

/-- C7 (amended) witness: the payload with all unguarded fields present
and all three risk buckets absent renders. -/
theorem render_total_when_required_present_witness :
    (render minimalPayload).isSome = true :=
  render_total_when_required_present minimalPayload
    { Risk_Score := none, High_Risk := none, Medium_Risk := none, Low_Risk := none }
    [] [] [] rfl rfl rfl rfl (fun _ ht => nomatch ht)

/-- C8: in the plain-CSS DocumentUpload, clicking Analyze sets
isAnalyzing, issues no network request and only starts a 3000 ms timer;
when the timer fires, isAnalyzing is reset and the completion alert is
shown; while isAnalyzing is true the button label reads Analyzing... and
the button is disabled. -/
theorem docUpload_demo_analyze_flow :
    ∀ d d2 : DocUploadState,
      (handleAnalyze d).1.isAnalyzing = true ∧
      (handleAnalyze d).2 = [Effect.setTimeoutMs 3000] ∧
      httpCount (handleAnalyze d).2 = 0 ∧
      (analyzeTimerDone d2).1.isAnalyzing = false ∧
      (analyzeTimerDone d2).2 =
        [Effect.alert "Document analysis complete! (This is a demo)"] ∧
      (d2.isAnalyzing = true →
        analyzeBtnLabel d2 = "Analyzing..." ∧ analyzeBtnDisabled d2 = true) := by
  intro d d2
  refine ⟨rfl, rfl, rfl, rfl, rfl, ?_⟩
  intro h
  constructor
  · simp [analyzeBtnLabel, h]
  · simp [analyzeBtnDisabled, h]

/-- C8 witness: the analyzing state obtained from clicking Analyze in
the initial DocumentUpload state satisfies the label and disabled
conclusions. -/
theorem docUpload_demo_analyze_flow_witness :
    (handleAnalyze initDocUploadState).1.isAnalyzing = true ∧
    (analyzeBtnLabel (handleAnalyze initDocUploadState).1 = "Analyzing..." ∧
      analyzeBtnDisabled (handleAnalyze initDocUploadState).1 = true) :=
  ⟨rfl,
   (docUpload_demo_analyze_flow initDocUploadState
      (handleAnalyze initDocUploadState).1).2.2.2.2.2 rfl⟩

/-- The rendered view of the minimal payload. -/
def minimalRendered : RenderedResults :=
  { docType := none, mainPurpose := none, riskScore := none,
    riskLabel := "Low Risk", riskCss := "low-risk", highlights := [],
    risksFound := 0, keyTermsCount := 0, questionsCount := 0,
    highRisks := [], mediumRisks := [], lowRisks := [], showNoRisks := true,
    termRows := [], questions := [] }

/-- C6: on mount, when local storage holds no legalAnalysisData entry
the Analysis page only schedules a navigation to /upload after 300 ms
and issues no fetch; when the entry exists it issues the fetch, does
not navigate, and on a successful response stores the parsed payload,
whose render the page then shows. -/
theorem analysisMount_storage_dispatch :
    ∀ (env : FetchOutcome) (str : String) (d : Payload),
      (analysisMount initAnalysisPageState none env).2 =
        [Effect.navigateAfter 300 "/upload"] ∧
      httpCount (analysisMount initAnalysisPageState none env).2 = 0 ∧
      (analysisMount initAnalysisPageState none env).1 = initAnalysisPageState ∧
      httpCount (analysisMount initAnalysisPageState (some str) env).2 = 1 ∧
      (analysisMount initAnalysisPageState (some str) env).2.all (fun e => !e.isNav) = true ∧
      (analysisMount initAnalysisPageState (some str) (FetchOutcome.response true 200 (some d))).1 =
        { analysisData := some d, loading := false, error := none } ∧
      (∀ v, render d = some v →
        renderAnalysisPage
          (analysisMount initAnalysisPageState (some str)
            (FetchOutcome.response true 200 (some d))).1 =
          PageView.resultsView v) := by
  intro env str d
  refine ⟨rfl, rfl, rfl, ?_, ?_, rfl, ?_⟩
  · show httpCount (fetchAnalysisData initAnalysisPageState env).2 = 1
    unfold fetchAnalysisData
    cases env with
    | reject msg => simp [httpCount, Effect.isHttp]
    | response ok status json =>
      cases ok with
      | false => simp [httpCount, Effect.isHttp]
      | true => cases json <;> simp [httpCount, Effect.isHttp]
  · show (fetchAnalysisData initAnalysisPageState env).2.all (fun e => !e.isNav) = true
    unfold fetchAnalysisData
    cases env with
    | reject msg => simp [Effect.isNav]
    | response ok status json =>
      cases ok with
      | false => simp [Effect.isNav]
      | true => cases json <;> simp [Effect.isNav]
  · intro v hv
    show renderAnalysisPage { analysisData := some d, loading := false, error := none } =
      PageView.resultsView v
    simp [renderAnalysisPage, jsTruthyStr, hv]

/-- C6 witness: with the minimal payload as the fetched body, the page
ends up showing its rendered results. -/
theorem analysisMount_storage_dispatch_witness :
    render minimalPayload = some minimalRendered ∧
    renderAnalysisPage
      (analysisMount initAnalysisPageState (some "stored")
        (FetchOutcome.response true 200 (some minimalPayload))).1 =
      PageView.resultsView minimalRendered :=
  ⟨rfl,
   (analysisMount_storage_dispatch (FetchOutcome.response true 200 (some minimalPayload))
      "stored" minimalPayload).2.2.2.2.2.2 minimalRendered rfl⟩

/-- C2: on the router-based Upload page, any Analyze submission that
reaches the fetch (the paste-text path) and hits a rejected promise or
a non-ok response shows an alert, does not navigate, leaves the shared
analysis state unchanged and resets loading; and any failed fetch of
results data leaves the Analysis page showing the inline error panel
with its Retry button instead of results. -/
theorem fetch_failure_alert_and_error_panel :
    ∀ (s : UploadState) (msg : String) (status : Nat) (j : Option Payload)
      (a : AnalysisPageState) (msg2 : String),
      s.hasFile = false → jsTrim s.pasteText ≠ "" → msg2 ≠ "" →
      ((analyze s (FetchOutcome.reject msg)).2.any Effect.isAlert = true ∧
       (analyze s (FetchOutcome.reject msg)).2.all (fun e => !e.isNav) = true ∧
       (analyze s (FetchOutcome.reject msg)).1.analysis = s.analysis ∧
       (analyze s (FetchOutcome.reject msg)).1.loading = false) ∧
      ((analyze s (FetchOutcome.response false status j)).2.any Effect.isAlert = true ∧
       (analyze s (FetchOutcome.response false status j)).2.all (fun e => !e.isNav) = true ∧
       (analyze s (FetchOutcome.response false status j)).1.analysis = s.analysis ∧
       (analyze s (FetchOutcome.response false status j)).1.loading = false) ∧
      renderAnalysisPage (fetchAnalysisData a (FetchOutcome.reject msg2)).1 =
        PageView.errorView msg2 true ∧
      renderAnalysisPage (fetchAnalysisData a (FetchOutcome.response false status j)).1 =
        PageView.errorView "Failed to fetch analysis data" true := by
  intro s msg status j a msg2 hF hT hM
  have hguard : ¬ (s.hasFile = false ∧ jsTrim s.pasteText = "") := by
    rintro ⟨_, h⟩; exact hT h
  have hhf : ¬ s.hasFile = true := by simp [hF]
  refine ⟨?_, ?_, ?_, ?_⟩
  · unfold analyze
    rw [if_neg hguard, if_neg hhf]
    simp [Effect.isAlert, Effect.isNav]
  · unfold analyze
    rw [if_neg hguard, if_neg hhf]
    simp [Effect.isAlert, Effect.isNav]
  · unfold fetchAnalysisData renderAnalysisPage
    simp [jsTruthyStr, hM]
  · unfold fetchAnalysisData renderAnalysisPage
    simp [jsTruthyStr]

/-- C2 witness: a paste-text submission against a rejecting network and
a failed results fetch, at concrete inputs. -/
theorem fetch_failure_alert_and_error_panel_witness :
    ((analyze { initUploadState with activeTab := "paste", pasteText := "Some contract text" }
        (FetchOutcome.reject "network error")).2.any Effect.isAlert = true ∧
     (analyze { initUploadState with activeTab := "paste", pasteText := "Some contract text" }
        (FetchOutcome.reject "network error")).1.loading = false) ∧
    renderAnalysisPage
        (fetchAnalysisData initAnalysisPageState (FetchOutcome.reject "network error")).1 =
      PageView.errorView "network error" true := by
  have h := fetch_failure_alert_and_error_panel
    { initUploadState with activeTab := "paste", pasteText := "Some contract text" }
    "network error" 500 none initAnalysisPageState "network error"
    rfl (by decide) (by decide)
  exact ⟨⟨h.1.1, h.1.2.2.2⟩, h.2.2.1⟩

/-- C9: getRiskLevel classifies every score into exactly one of the
three level and class pairs: High Risk exactly when the score is at
least 8, Medium Risk exactly when it is at least 5 and below 8, and
Low Risk exactly otherwise; the three cases are exhaustive and mutually
exclusive. -/
theorem getRiskLevel_trichotomy :
    ∀ sc : ℚ,
      (getRiskLevel sc = ("High Risk", "high-risk") ↔ 8 ≤ sc) ∧
      (getRiskLevel sc = ("Medium Risk", "medium-risk") ↔ 5 ≤ sc ∧ sc < 8) ∧
      (getRiskLevel sc = ("Low Risk", "low-risk") ↔ sc < 5) ∧
      (getRiskLevel sc = ("High Risk", "high-risk") ∨
       getRiskLevel sc = ("Medium Risk", "medium-risk") ∨
       getRiskLevel sc = ("Low Risk", "low-risk")) := by
  intro sc
  unfold getRiskLevel
  split_ifs with h1 h2
  · exact ⟨iff_of_true rfl h1,
      iff_of_false (by decide) (fun h => absurd h1 (not_le.mpr h.2)),
      iff_of_false (by decide)
        (fun h => absurd h1 (not_le.mpr (lt_trans h (by norm_num)))),
      Or.inl rfl⟩
  · exact ⟨iff_of_false (by decide) h1,
      iff_of_true rfl ⟨h2, not_le.mp h1⟩,
      iff_of_false (by decide) (fun h => absurd h2 (not_le.mpr h)),
      Or.inr (Or.inl rfl)⟩
  · exact ⟨iff_of_false (by decide) h1,
      iff_of_false (by decide) (fun h => h2 h.1),
      iff_of_true rfl (not_le.mp h2),
      Or.inr (Or.inr rfl)⟩

/-- Relation between two consecutive overlay states: progress does not
decrease, grows by at most 8, the stage switches to the finalizing text
as soon as progress passes 70, and a finalizing stage never reverts. -/
def overlayStepRel (a b : ℚ × String) : Prop :=
  a.1 ≤ b.1 ∧ b.1 ≤ a.1 + 8 ∧ (70 < b.1 → b.2 = finalizingStage) ∧
    (a.2 = finalizingStage → b.2 = finalizingStage)

/-- C10: starting from any overlay state with progress at most 95 (the
component starts at 5), along any sequence of tick increments in
[0, 8], the progress never exceeds 95 and every consecutive pair of
states satisfies the monotone, capped-increment, stage-switch and
stage-latch relation. -/
theorem overlay_progress_invariants :
    ∀ (incs : List ℚ) (st : ℚ × String),
      st.1 ≤ 95 → (∀ i ∈ incs, 0 ≤ i ∧ i ≤ 8) →
      (∀ x ∈ overlayTrace st incs, x.1 ≤ 95) ∧
      List.Chain' overlayStepRel (overlayTrace st incs) := by
  intro incs
  induction incs with
  | nil =>
    intro st h1 _
    refine ⟨?_, ?_⟩
    · intro x hx
      rw [overlayTrace, List.mem_singleton] at hx
      subst hx
      exact h1
    · rw [overlayTrace]
      exact List.chain'_singleton st
  | cons i rest ih =>
    intro st h1 h2
    have hi := h2 i (List.mem_cons_self i rest)
    have hrest : ∀ j ∈ rest, 0 ≤ j ∧ j ≤ 8 := fun j hj => h2 j (List.mem_cons_of_mem i hj)
    have hstep1 : (overlayStep st i).1 ≤ 95 := min_le_right _ _
    obtain ⟨ihb, ihc⟩ := ih (overlayStep st i) hstep1 hrest
    constructor
    · intro x hx
      rw [overlayTrace] at hx
      rcases List.mem_cons.mp hx with rfl | hx2
      · exact h1
      · exact ihb x hx2
    · show List.Chain' overlayStepRel (st :: overlayTrace (overlayStep st i) rest)
      refine List.chain'_cons'.mpr ⟨?_, ihc⟩
      intro y hy
      have hhead : (overlayTrace (overlayStep st i) rest).head? = some (overlayStep st i) := by
        cases rest <;> rfl
      rw [hhead] at hy
      have hy' : y = overlayStep st i := by
        have := hy
        simp only [Option.mem_def, Option.some.injEq] at this
        exact this.symm
      subst hy'
      refine ⟨?_, ?_, ?_, ?_⟩
      · exact le_min (le_add_of_nonneg_right hi.1) h1
      · exact le_trans (min_le_left _ _) (by linarith [hi.2])
      · intro h70
        show (overlayStep st i).2 = finalizingStage
        unfold overlayStep at h70 ⊢
        dsimp only at h70 ⊢
        rw [if_pos h70]
      · intro hfin
        show (overlayStep st i).2 = finalizingStage
        unfold overlayStep
        dsimp only
        split
        · rfl
        · exact hfin

/-- C10 witness: one tick of the maximal increment from the initial
overlay state. -/
theorem overlay_progress_invariants_witness :
    (initOverlayState.1 ≤ 95 ∧ ∀ i ∈ [(8 : ℚ)], 0 ≤ i ∧ i ≤ 8) ∧
    ((∀ x ∈ overlayTrace initOverlayState [(8 : ℚ)], x.1 ≤ 95) ∧
     List.Chain' overlayStepRel (overlayTrace initOverlayState [(8 : ℚ)])) := by
  have harg : ∀ i ∈ [(8 : ℚ)], 0 ≤ i ∧ i ≤ 8 := by
    intro i hi
    rw [List.mem_singleton] at hi
    subst hi
    norm_num
  have hinit : initOverlayState.1 ≤ 95 := by norm_num [initOverlayState]
  exact ⟨⟨hinit, harg⟩, overlay_progress_invariants [(8 : ℚ)] initOverlayState hinit harg⟩

end L2S
